import Mathlib

/-!
Formal verification of the gear-geometry computations of the HelicalGearPlus
repository (Fusion 360 helical-gear add-in).

The repository contains two variants of the gear math:
* `HelicalGear.py` (the older add-in), embedded below in namespace `HG` with
  the original snake_case names, and
* `HelicalGearPlus.py` (the newer add-in), embedded in namespace `HGP` with
  the original camelCase names.

The Python floating-point arithmetic is idealised as real arithmetic (`ℝ`),
the standard shallow embedding for numeric code: `math.cos` becomes
`Real.cos`, `math.pow(x, 1/3)` becomes the real power `x ^ ((1:ℝ)/3)`, and so
on.  Gear objects are records whose fields are the attributes assigned by the
static factory methods; the Python `@property` accessors become functions on
those records.

`HelicalGearPlus.py` as committed does not parse (line 513 is the dangling
statement `gear.`), and its `pitchDiameter` / `baseDiameter` properties refer
to unbound names (`module`, `toothcount`, `gear`).  Where a definition below
depends on one of those broken properties, the intended formula is
reconstructed from the commented-out assignments in the same file
(lines 515-516: `gear.pitchDiameter = gear.module * gear.toothCount`,
`gear.baseDiameter = gear.pitchDiameter * math.cos(gear.pressureAngle)`) and
from the older working variant; each such definition carries a doc comment
saying so.
-/

open Real

/-- Python's `math.radians`: degrees to radians, `x * π / 180`. -/
noncomputable def radians (x : ℝ) : ℝ := x * Real.pi / 180

/-- Python's `math.atan2(y, x)`: the full four-quadrant arctangent (the
signed-zero distinctions of IEEE floats are irrelevant here and collapse). -/
noncomputable def atan2 (y x : ℝ) : ℝ :=
  if 0 < x then Real.arctan (y / x)
  else if x < 0 then
    (if 0 ≤ y then Real.arctan (y / x) + Real.pi else Real.arctan (y / x) - Real.pi)
  else -- x = 0
    (if 0 < y then Real.pi / 2 else if y < 0 then -(Real.pi / 2) else 0)

/-- `Involute.Involute` (HelicalGearPlus.py line 251):
`return math.tan(angle)-angle`. -/
noncomputable def Involute.Involute (angle : ℝ) : ℝ := Real.tan angle - angle

/-- Loop body of `Involute.InverseInvolute` (HelicalGearPlus.py line 260):
`angle = angle + (I - (math.tan(angle) - angle))/pow(math.tan(angle),2)`. -/
noncomputable def Involute.inverseInvoluteStep (I angle : ℝ) : ℝ :=
  angle + (I - (Real.tan angle - angle)) / Real.tan angle ^ 2

/-- Initial estimate of `Involute.InverseInvolute` (HelicalGearPlus.py
line 258): `angle = 1.44792*pow(I,1/3)-0.0472447*pow(I,2/3)-0.29949*I`. -/
noncomputable def Involute.inverseInvoluteInit (I : ℝ) : ℝ :=
  1.44792 * I ^ ((1 : ℝ)/3) - 0.0472447 * I ^ ((2 : ℝ)/3) - 0.29949 * I

/-- `Involute.InverseInvolute` (HelicalGearPlus.py lines 254-261): the closed
form initial estimate followed by the `for i in range(3)` Newton loop,
unrolled. -/
noncomputable def Involute.InverseInvolute (I : ℝ) : ℝ :=
  Involute.inverseInvoluteStep I (Involute.inverseInvoluteStep I
    (Involute.inverseInvoluteStep I (Involute.inverseInvoluteInit I)))

/-- A 3D point, as produced by `adsk.core.Point3D.create(x, y, z)`. -/
structure Point3D where
  x : ℝ
  y : ℝ
  z : ℝ

namespace HG

/-- `Handedness` enum of HelicalGear.py. -/
inductive Handedness where
  | left
  | right
deriving DecidableEq

/-- State of a `HelicalGear` object of HelicalGear.py after one of its three
factory methods has run: one field per private attribute the factories
assign. -/
structure Gear where
  backlash : ℝ
  helix_angle : ℝ
  handedness : Handedness
  tooth_count : ℝ
  normal_module : ℝ
  normal_pressure_angle : ℝ
  normal_circular_pitch : ℝ
  virtual_teeth : ℝ
  module : ℝ
  pressure_angle : ℝ
  pitch_diameter : ℝ
  base_diameter : ℝ
  addendum : ℝ
  whole_depth : ℝ
  outside_diameter : ℝ
  root_diameter : ℝ
  circular_pitch : ℝ

/-- `HelicalGear.backlash_angle` (HelicalGear.py lines 263-266):
`2 * backlash / pitch_diameter if pitch_diameter > 0 else 0`. -/
noncomputable def backlash_angle (g : Gear) : ℝ :=
  if 0 < g.pitch_diameter then 2 * g.backlash / g.pitch_diameter else 0

/-- `HelicalGear.tooth_arc_angle` (HelicalGear.py lines 268-271):
`2 * math.pi / tooth_count if tooth_count > 0 else 0`. -/
noncomputable def tooth_arc_angle (g : Gear) : ℝ :=
  if 0 < g.tooth_count then 2 * Real.pi / g.tooth_count else 0

/-- `HelicalGear.critcal_virtual_tooth_count` (HelicalGear.py lines 307-310)
computes `q = sin²(normal_pressure_angle)` and returns `2 / q` when `q ≠ 0`;
when `q = 0` the Python returns `float('inf')`, which real arithmetic cannot
represent, so only the `q ≠ 0` value is embedded here. -/
noncomputable def critcal_virtual_tooth_count (g : Gear) : ℝ :=
  2 / Real.sin g.normal_pressure_angle ^ 2

/-- `HelicalGear.is_undercut_requried` (HelicalGear.py lines 254-256):
`virtual_teeth < critcal_virtual_tooth_count`.  The `q = 0` branch of
`critcal_virtual_tooth_count` returns `float('inf')`, and a finite
`virtual_teeth` always compares below it, hence the `True` branch. -/
noncomputable def is_undercut_requried (g : Gear) : Prop :=
  if Real.sin g.normal_pressure_angle ^ 2 = 0 then True
  else g.virtual_teeth < critcal_virtual_tooth_count g

/-- `HelicalGear.is_valid` (HelicalGear.py lines 312-328): the conjunction of
its checks, in source order. -/
noncomputable def is_valid (g : Gear) : Prop :=
  0 < g.circular_pitch ∧
  0 < g.base_diameter ∧
  0 < g.pitch_diameter ∧
  0.03 < g.root_diameter ∧
  0 < g.outside_diameter ∧
  0 < g.whole_depth ∧
  0 < g.addendum ∧
  0 ≤ g.pressure_angle ∧
  g.pressure_angle < radians 90 ∧
  0 < g.module ∧
  0 < g.tooth_count ∧
  0 ≤ g.helix_angle ∧
  g.helix_angle < radians 90 ∧
  |backlash_angle g| / 4 < tooth_arc_angle g / 8

/-- `HelicalGear.create_in_normal_system` (HelicalGear.py lines 377-408). -/
noncomputable def create_in_normal_system (tooth_count normal_module
    normal_pressure_angle helix_angle : ℝ) (handedness : Handedness)
    (backlash : ℝ) : Gear :=
  let tooth_count := if 0 < tooth_count then tooth_count else 1
  let normal_module := if 0 < normal_module then normal_module else 1e-10
  let normal_pressure_angle :=
    if 0 ≤ normal_pressure_angle ∧ normal_pressure_angle < radians 90 then
      normal_pressure_angle else 0
  let helix_angle :=
    if 0 ≤ helix_angle ∧ helix_angle < radians 90 then helix_angle else 0
  let cos_helix_angle := Real.cos helix_angle
  let module := normal_module / cos_helix_angle
  let pressure_angle := atan2 (Real.tan normal_pressure_angle) cos_helix_angle
  let pitch_diameter := module * tooth_count
  let base_diameter := pitch_diameter * Real.cos pressure_angle
  let addendum := normal_module
  let whole_depth := 2.25 * normal_module
  let outside_diameter := pitch_diameter + 2 * addendum
  { backlash := backlash
    helix_angle := helix_angle
    handedness := handedness
    tooth_count := tooth_count
    normal_module := normal_module
    normal_pressure_angle := normal_pressure_angle
    normal_circular_pitch := normal_module * Real.pi
    virtual_teeth := tooth_count / cos_helix_angle ^ 3
    module := module
    pressure_angle := pressure_angle
    pitch_diameter := pitch_diameter
    base_diameter := base_diameter
    addendum := addendum
    whole_depth := whole_depth
    outside_diameter := outside_diameter
    root_diameter := outside_diameter - 2 * whole_depth
    circular_pitch := module * Real.pi }

/-- `HelicalGear.create_in_radial_system` (HelicalGear.py lines 410-441). -/
noncomputable def create_in_radial_system (tooth_count radial_module
    radial_pressure_angle helix_angle : ℝ) (handedness : Handedness)
    (backlash : ℝ) : Gear :=
  let tooth_count := if 0 < tooth_count then tooth_count else 1
  let radial_module := if 0 < radial_module then radial_module else 1e-10
  let radial_pressure_angle :=
    if 0 ≤ radial_pressure_angle ∧ radial_pressure_angle < radians 90 then
      radial_pressure_angle else 0
  let helix_angle :=
    if 0 ≤ helix_angle ∧ helix_angle < radians 90 then helix_angle else 0
  let cos_helix_angle := Real.cos helix_angle
  let module := radial_module
  let pressure_angle := radial_pressure_angle
  let pitch_diameter := module * tooth_count
  let addendum := module
  let whole_depth := 2.25 * module
  let outside_diameter := pitch_diameter + 2 * addendum
  { backlash := backlash
    helix_angle := helix_angle
    handedness := handedness
    tooth_count := tooth_count
    normal_module := radial_module * cos_helix_angle
    normal_pressure_angle :=
      Real.arctan (Real.tan radial_pressure_angle * cos_helix_angle)
    normal_circular_pitch := radial_module * cos_helix_angle * Real.pi
    virtual_teeth := tooth_count / cos_helix_angle ^ 3
    module := module
    pressure_angle := pressure_angle
    pitch_diameter := pitch_diameter
    base_diameter := pitch_diameter * Real.cos pressure_angle
    addendum := addendum
    whole_depth := whole_depth
    outside_diameter := outside_diameter
    root_diameter := outside_diameter - 2 * whole_depth
    circular_pitch := module * Real.pi }

/-- `HelicalGear.create_sunderland` (HelicalGear.py lines 443-478): helix
angle fixed at `radians(22.5)`, radial pressure angle fixed at `radians(20)`,
addendum `0.8796 * module` and whole depth `1.8849 * module` where `module`
is the (clamped) radial module. -/
noncomputable def create_sunderland (tooth_count radial_module : ℝ)
    (handedness : Handedness) (backlash : ℝ) : Gear :=
  let tooth_count := if 0 < tooth_count then tooth_count else 1
  let radial_module := if 0 < radial_module then radial_module else 1e-10
  let helix_angle := radians 22.5
  let radial_pressure_angle := radians 20
  let cos_helix_angle := Real.cos helix_angle
  let module := radial_module
  let pressure_angle := radial_pressure_angle
  let pitch_diameter := module * tooth_count
  let addendum := 0.8796 * module
  let whole_depth := 1.8849 * module
  let outside_diameter := pitch_diameter + 2 * addendum
  { backlash := backlash
    helix_angle := helix_angle
    handedness := handedness
    tooth_count := tooth_count
    normal_module := radial_module * cos_helix_angle
    normal_pressure_angle :=
      Real.arctan (Real.tan radial_pressure_angle * cos_helix_angle)
    normal_circular_pitch := radial_module * cos_helix_angle * Real.pi
    virtual_teeth := tooth_count / cos_helix_angle ^ 3
    module := module
    pressure_angle := pressure_angle
    pitch_diameter := pitch_diameter
    base_diameter := pitch_diameter * Real.cos pressure_angle
    addendum := addendum
    whole_depth := whole_depth
    outside_diameter := outside_diameter
    root_diameter := outside_diameter - 2 * whole_depth
    circular_pitch := module * Real.pi }

/-- `Involute._involute_point` (HelicalGear.py lines 176-183, identical to
`Involute.InvolutePoint` in HelicalGearPlus.py lines 242-249):
`l = sqrt(d² - b²)`, `alpha = l / b`, `theta = alpha - acos(b / d)`, returning
`(d·cos theta, d·sin theta, z_shift)`. -/
noncomputable def involute_point (baseCircleRadius distFromCenterToInvolutePoint
    z_shift : ℝ) : Point3D :=
  let l := Real.sqrt (distFromCenterToInvolutePoint * distFromCenterToInvolutePoint
    - baseCircleRadius * baseCircleRadius)
  let alpha := l / baseCircleRadius
  let theta := alpha - Real.arccos (baseCircleRadius / distFromCenterToInvolutePoint)
  ⟨distFromCenterToInvolutePoint * Real.cos theta,
   distFromCenterToInvolutePoint * Real.sin theta, z_shift⟩

/-- Start radius of the involute sampling in `Involute.draw` (HelicalGear.py
lines 45-48): `base_diameter / 2` when `base_diameter >= root_diameter`,
else `root_diameter / 2`. -/
noncomputable def involute_from_rad (g : Gear) : ℝ :=
  if g.root_diameter ≤ g.base_diameter then g.base_diameter / 2
  else g.root_diameter / 2

/-- `radiusStep` of `Involute.draw` (HelicalGear.py line 49):
`(outside_diameter / 2 - involute_from_rad) / (involutePointCount - 1)`. -/
noncomputable def radiusStep (g : Gear) (involutePointCount : ℕ) : ℝ :=
  (g.outside_diameter / 2 - involute_from_rad g) / ((involutePointCount : ℝ) - 1)

/-- The `i`-th value of `involuteIntersectionRadius` in the sampling loop of
`Involute.draw` (HelicalGear.py lines 50-54): the start radius plus `i`
radius steps. -/
noncomputable def involuteIntersectionRadius (g : Gear)
    (involutePointCount i : ℕ) : ℝ :=
  involute_from_rad g + (i : ℝ) * radiusStep g involutePointCount

/-- The list of sample radii visited by the loop of `Involute.draw`
(HelicalGear.py lines 51-54), for `i in range(0, involutePointCount)`. -/
noncomputable def involuteRadii (g : Gear) (involutePointCount : ℕ) : List ℝ :=
  (List.range involutePointCount).map (involuteIntersectionRadius g involutePointCount)

/-- Default value of the `involutePointCount` parameter of `Involute.draw`
(HelicalGear.py line 39). -/
def involutePointCountDefault : ℕ := 10

end HG

/-- The flank-crossing assertion of `Involute.draw` (HelicalGear.py lines
114-115; HelicalGearPlus.py lines 180-181): given the crossing points of the
two mirrored flank splines, `assert len(cross_points) == 0 or
len(cross_points) == 1, 'Failed to compute a valid involute profile!'`.
A Python `assert` raises `AssertionError` with the message when the condition
fails; this is embedded as an `Except`. -/
def Involute.drawCrossingAssert (cross_points : List Point3D) :
    Except String (List Point3D) :=
  if cross_points.length = 0 ∨ cross_points.length = 1 then
    Except.ok cross_points
  else
    Except.error "Failed to compute a valid involute profile!"

namespace HGP

/-- `GearModifier.__init__` fields (HelicalGearPlus.py lines 263-268), with
the constructor defaults `(0, 0, 0, 0)`. -/
structure GearModifier where
  profileShift : ℝ
  otherToothCount : ℝ
  otherProfileShift : ℝ
  centerCenterDistance : ℝ

/-- The `GearModifier` built from the constructor's default arguments. -/
def GearModifier.defaultInstance : GearModifier := ⟨0, 0, 0, 0⟩

/-- `GearMount.__init__` fields (HelicalGearPlus.py lines 288-292). -/
structure GearMount where
  bore : ℝ
  keyHeight : ℝ
  keyWidth : ℝ

/-- The `GearMount` built from the constructor's default arguments. -/
def GearMount.defaultInstance : GearMount := ⟨0, 0, 0⟩

/-- State of a `HelicalGear` object of HelicalGearPlus.py after a factory
method has run: one field per attribute the factories assign.
`internalOutsideDiameter` is `Option ℝ` because the factories accept `None`
for it.  In the source, `gear.modifier` is set to the *class* `GearModifier`
when the caller passes `None` (a slip: the class has no `profileShift`
attribute, so any later access would raise `AttributeError`); the intended
default instance `GearModifier()` (all fields 0) is used here instead. -/
structure Gear where
  backlash : ℝ
  helixAngle : ℝ
  toothCount : ℝ
  width : ℝ
  herringbone : Bool
  internalOutsideDiameter : Option ℝ
  modifier : GearModifier
  mount : GearMount
  normalModule : ℝ
  normalPressureAngle : ℝ
  normalCircularPitch : ℝ
  virtualTeeth : ℝ
  module : ℝ
  pressureAngle : ℝ
  addendum : ℝ
  wholeDepth : ℝ
  tipDiameter : ℝ
  outsideDiameter : ℝ
  rootDiameter : ℝ
  circularPitch : ℝ

/-- `HelicalGear.pitchDiameter` property (HelicalGearPlus.py lines 352-355).
Modelled from the spec: the committed property body is
`return module * toothcount`, whose names `module` and `toothcount` are
unbound (a `NameError` if executed); the spec (`pitchDiameter =
module·toothCount`) and the commented-out factory assignment at line 515
(`gear.pitchDiameter = gear.module * gear.toothCount`) give the intended
formula embedded here. -/
noncomputable def pitchDiameter (g : Gear) : ℝ := g.module * g.toothCount

/-- `HelicalGear.baseDiameter` property (HelicalGearPlus.py lines 357-360).
Modelled from the spec: the committed property body is
`return pitchDiameter * math.cos(gear.pressureAngle)`, whose names
`pitchDiameter` and `gear` are unbound (a `NameError` if executed); the spec
(`baseDiameter = pitchDiameter·cos(pressureAngle)`) and the commented-out
factory assignment at line 516 give the intended formula embedded here. -/
noncomputable def baseDiameter (g : Gear) : ℝ :=
  pitchDiameter g * Real.cos g.pressureAngle

/-- `HelicalGear.backlashAngle` (HelicalGearPlus.py lines 312-315):
`2 * backlash / pitchDiameter if pitchDiameter > 0 else 0`. -/
noncomputable def backlashAngle (g : Gear) : ℝ :=
  if 0 < pitchDiameter g then 2 * g.backlash / pitchDiameter g else 0

/-- `HelicalGear.toothArcAngle` (HelicalGearPlus.py lines 317-320):
`2 * math.pi / toothCount if toothCount > 0 else 0`. -/
noncomputable def toothArcAngle (g : Gear) : ℝ :=
  if 0 < g.toothCount then 2 * Real.pi / g.toothCount else 0

/-- `HelicalGear.involuteA` (HelicalGearPlus.py lines 332-335):
`math.tan(pressureAngle) - pressureAngle`. -/
noncomputable def involuteA (g : Gear) : ℝ :=
  Real.tan g.pressureAngle - g.pressureAngle

/-- `HelicalGear.involuteW` (HelicalGearPlus.py lines 342-345):
`2 * tan(pressureAngle) * (profileShift + otherProfileShift) /
(toothCount + otherToothCount) + involuteA`. -/
noncomputable def involuteW (g : Gear) : ℝ :=
  2 * Real.tan g.pressureAngle *
      (g.modifier.profileShift + g.modifier.otherProfileShift) /
      (g.toothCount + g.modifier.otherToothCount) + involuteA g

/-- `HelicalGear.workingPressureAngle` (HelicalGearPlus.py lines 347-350):
`Involute.InverseInvolute(involuteW)`. -/
noncomputable def workingPressureAngle (g : Gear) : ℝ :=
  Involute.InverseInvolute (involuteW g)

/-- `HelicalGear.centerDistanceIncrementFactor` (HelicalGearPlus.py lines
367-370): `(toothCount + otherToothCount)/2 *
(cos(pressureAngle)/cos(workingPressureAngle) - 1)`. -/
noncomputable def centerDistanceIncrementFactor (g : Gear) : ℝ :=
  (g.toothCount + g.modifier.otherToothCount) / 2 *
    (Real.cos g.pressureAngle / Real.cos (workingPressureAngle g) - 1)

/-- `HelicalGear.critcalVirtualToothCount` (HelicalGearPlus.py lines 386-389)
computes `q = sin²(normalPressureAngle)` and returns
`2*(1 - profileShift) / q` when `q ≠ 0`; when `q = 0` the Python returns
`float('inf')`, which real arithmetic cannot represent, so only the `q ≠ 0`
value is embedded here. -/
noncomputable def critcalVirtualToothCount (g : Gear) : ℝ :=
  2 * (1 - g.modifier.profileShift) / Real.sin g.normalPressureAngle ^ 2

/-- `HelicalGear.isUndercutRequried` (HelicalGearPlus.py lines 308-310):
`virtualTeeth < critcalVirtualToothCount`.  When
`sin²(normalPressureAngle) = 0` the Python critical count is `float('inf')`
and the finite `virtualTeeth` always compares below it, hence the `True`
branch. -/
noncomputable def isUndercutRequried (g : Gear) : Prop :=
  if Real.sin g.normalPressureAngle ^ 2 = 0 then True
  else g.virtualTeeth < critcalVirtualToothCount g

/-- `HelicalGear.isInvalid` (HelicalGearPlus.py lines 391-430): the chain of
checks in source order, returning the first failing check's label, or `none`
(Python `False`) when every check passes.  Python's
`if (self.internalOutsideDiameter):` is truthy exactly when the attribute is
neither `None` nor `0`, encoded as `getD 0 ≠ 0`. -/
noncomputable def isInvalid (g : Gear) : Option String :=
  if g.width ≤ 0 then some "Width too low"
  else if g.helixAngle < radians (-90) then some "Helix angle too low"
  else if radians 90 < g.helixAngle then some "Helix angle too high"
  else if g.module ≤ 0 then some "Module to low"
  else if g.addendum ≤ 0 then some "Addendum too low"
  else if g.wholeDepth ≤ 0 then some "Dedendum too low"
  else if g.pressureAngle < 0 then some "Pressure angle too low"
  else if radians 80 < g.pressureAngle then some "Pressure angle too high"
  else if g.normalPressureAngle < 0 then some "Pressure angle too low"
  else if radians 80 < g.normalPressureAngle then some "Pressure angle too high"
  else if g.toothCount ≤ 0 then some "Too few teeth"
  else if toothArcAngle g / 8 ≤ |backlashAngle g| / 4 then some "Backlash too high"
  else if g.internalOutsideDiameter.getD 0 ≠ 0 ∧
      g.internalOutsideDiameter.getD 0 ≤ g.outsideDiameter then
    some "Outside diameter too low"
  else if g.circularPitch ≤ 0 then some "Invalid: circularPitch"
  else if baseDiameter g ≤ 0 then some "Invalid Gear"
  else if pitchDiameter g ≤ 0 then some "Invalid Gear"
  else if g.rootDiameter ≤ 0.03 then some "Invalid Gear"
  else if g.outsideDiameter ≤ 0 then some "Invalid Gear"
  else none

/-- The checks of `isInvalid` as an ordered list of (failure condition,
label) pairs, in the priority order of the source. -/
noncomputable def failList (g : Gear) : List (Prop × String) :=
  [(g.width ≤ 0, "Width too low"),
   (g.helixAngle < radians (-90), "Helix angle too low"),
   (radians 90 < g.helixAngle, "Helix angle too high"),
   (g.module ≤ 0, "Module to low"),
   (g.addendum ≤ 0, "Addendum too low"),
   (g.wholeDepth ≤ 0, "Dedendum too low"),
   (g.pressureAngle < 0, "Pressure angle too low"),
   (radians 80 < g.pressureAngle, "Pressure angle too high"),
   (g.normalPressureAngle < 0, "Pressure angle too low"),
   (radians 80 < g.normalPressureAngle, "Pressure angle too high"),
   (g.toothCount ≤ 0, "Too few teeth"),
   (toothArcAngle g / 8 ≤ |backlashAngle g| / 4, "Backlash too high"),
   (g.internalOutsideDiameter.getD 0 ≠ 0 ∧
      g.internalOutsideDiameter.getD 0 ≤ g.outsideDiameter,
    "Outside diameter too low"),
   (g.circularPitch ≤ 0, "Invalid: circularPitch"),
   (baseDiameter g ≤ 0, "Invalid Gear"),
   (pitchDiameter g ≤ 0, "Invalid Gear"),
   (g.rootDiameter ≤ 0.03, "Invalid Gear"),
   (g.outsideDiameter ≤ 0, "Invalid Gear")]

open Classical in
/-- The label of the first entry of a (condition, label) list whose
condition holds, if any. -/
noncomputable def firstFailingLabel : List (Prop × String) → Option String
  | [] => none
  | pc :: rest => if pc.1 then some pc.2 else firstFailingLabel rest

/-- `HelicalGear.createInNormalSystem` (HelicalGearPlus.py lines 476-541).
The source body cannot run: line 513 is the dangling statement `gear.`
(a `SyntaxError`), and lines 534/536 would evaluate the broken
`pitchDiameter` / `workingPitchDiameter` properties.  The embedding follows
the executable intent: the commented clamps at lines 484-486 are *omitted*
(they are commented out, so `normalModule`, `normalPressureAngle` and
`helixAngle` pass through unclamped), `pitchDiameter` is the reconstructed
property value, and the dead assignment of line 536 (immediately overwritten
at line 537) is dropped. -/
noncomputable def createInNormalSystem (toothCount normalModule
    normalPressureAngle helixAngle backlash addendum dedendum width : ℝ)
    (herringbone : Bool) (internalOutsideDiameter : Option ℝ)
    (gearmodifier : Option GearModifier) (gearmount : Option GearMount) :
    Gear :=
  let toothCount := if 0 < toothCount then toothCount else 1
  let modifier := gearmodifier.getD GearModifier.defaultInstance
  let mount := gearmount.getD GearMount.defaultInstance
  let cosHelixAngle := Real.cos helixAngle
  let module := normalModule / cosHelixAngle
  let pressureAngle := atan2 (Real.tan normalPressureAngle) cosHelixAngle
  let pitchDiameter := module * toothCount
  let involuteA := Real.tan pressureAngle - pressureAngle
  let involuteW := 2 * Real.tan pressureAngle *
      (modifier.profileShift + modifier.otherProfileShift) /
      (toothCount + modifier.otherToothCount) + involuteA
  let workingPressureAngle := Involute.InverseInvolute involuteW
  let centerDistanceIncrementFactor := (toothCount + modifier.otherToothCount) / 2 *
      (Real.cos pressureAngle / Real.cos workingPressureAngle - 1)
  let gearAddendum :=
    if modifier.otherProfileShift = 0 then
      (addendum + modifier.profileShift) * module
    else
      (addendum + centerDistanceIncrementFactor - modifier.otherProfileShift) * module
  let wholeDepth :=
    if modifier.otherProfileShift = 0 then
      (addendum + dedendum) * module
    else
      (addendum + dedendum + centerDistanceIncrementFactor
        - modifier.profileShift - modifier.otherProfileShift) * module
  let tipDiameter := pitchDiameter + 2 * gearAddendum
  let outsideDiameter := tipDiameter
  { backlash := backlash
    helixAngle := helixAngle
    toothCount := toothCount
    width := width
    herringbone := herringbone
    internalOutsideDiameter := internalOutsideDiameter
    modifier := modifier
    mount := mount
    normalModule := normalModule
    normalPressureAngle := normalPressureAngle
    normalCircularPitch := normalModule * Real.pi
    virtualTeeth := toothCount / cosHelixAngle ^ 3
    module := module
    pressureAngle := pressureAngle
    addendum := gearAddendum
    wholeDepth := wholeDepth
    tipDiameter := tipDiameter
    outsideDiameter := outsideDiameter
    rootDiameter := outsideDiameter - 2 * wholeDepth
    circularPitch := module * Real.pi }

/-- `HelicalGear.createInRadialSystem` (HelicalGearPlus.py lines 543-608).
All four input clamps are active in this variant (lines 548-551).  The
`addendum` assignment at line 602 references the unbound name `profileshift`
(a `NameError` if executed); following the commented-out earlier signature
and the normal-system variant, it is reconstructed as the modifier's
`profileShift`.  `pitchDiameter` in the outside-diameter formula (line 604)
is the reconstructed property value.  The source never sets `tipDiameter`
here; it is recorded as `pitchDiameter + 2·addendum` (the value
`outsideDiameter` receives). -/
noncomputable def createInRadialSystem (toothCount radialModule
    radialPressureAngle helixAngle backlash addendum dedendum width : ℝ)
    (herringbone : Bool) (internalOutsideDiameter : Option ℝ)
    (gearmodifier : Option GearModifier) (gearmount : Option GearMount) :
    Gear :=
  let toothCount := if 0 < toothCount then toothCount else 1
  let radialModule := if 0 < radialModule then radialModule else 1e-10
  let radialPressureAngle :=
    if 0 ≤ radialPressureAngle ∧ radialPressureAngle < radians 90 then
      radialPressureAngle else 0
  let helixAngle :=
    if radians (-90) < helixAngle ∧ helixAngle < radians 90 then helixAngle else 0
  let modifier := gearmodifier.getD GearModifier.defaultInstance
  let mount := gearmount.getD GearMount.defaultInstance
  let cosHelixAngle := Real.cos helixAngle
  let module := radialModule
  let pressureAngle := radialPressureAngle
  let pitchDiameter := module * toothCount
  let gearAddendum := (addendum + modifier.profileShift) * module
  let wholeDepth := (addendum + dedendum) * module
  let outsideDiameter := pitchDiameter + 2 * gearAddendum
  { backlash := backlash
    helixAngle := helixAngle
    toothCount := toothCount
    width := width
    herringbone := herringbone
    internalOutsideDiameter := internalOutsideDiameter
    modifier := modifier
    mount := mount
    normalModule := radialModule * cosHelixAngle
    normalPressureAngle :=
      Real.arctan (Real.tan radialPressureAngle * cosHelixAngle)
    normalCircularPitch := radialModule * cosHelixAngle * Real.pi
    virtualTeeth := toothCount / cosHelixAngle ^ 3
    module := module
    pressureAngle := pressureAngle
    addendum := gearAddendum
    wholeDepth := wholeDepth
    tipDiameter := outsideDiameter
    outsideDiameter := outsideDiameter
    rootDiameter := outsideDiameter - 2 * wholeDepth
    circularPitch := module * Real.pi }

end HGP

/-! Shared helper lemmas about `radians`. -/

lemma radians_nonneg {a : ℝ} (h : 0 ≤ a) : 0 ≤ radians a := by
  unfold radians
  have := Real.pi_pos
  positivity

lemma radians_lt_radians {a b : ℝ} (h : a < b) : radians a < radians b := by
  unfold radians
  have hπ := Real.pi_pos
  rw [div_lt_div_iff_of_pos_right (by norm_num)]
  exact mul_lt_mul_of_pos_right h hπ

/-! Concrete gear states used by witnesses. -/

/-- A concrete `HGP.Gear` state: the transverse quantities of a 16-tooth,
module 0.3, spur (zero helix) gear with 45 degree pressure angle, no profile
shift, and a normal pressure angle of `π/2` (so that `sin² ≠ 0` is easy to
check). -/
noncomputable def HGP.gearA : HGP.Gear :=
  { backlash := 0
    helixAngle := 0
    toothCount := 16
    width := 1
    herringbone := false
    internalOutsideDiameter := none
    modifier := ⟨0, 0, 0, 0⟩
    mount := ⟨0, 0, 0⟩
    normalModule := 0.3
    normalPressureAngle := Real.pi / 2
    normalCircularPitch := 0.3 * Real.pi
    virtualTeeth := 16
    module := 0.3
    pressureAngle := Real.pi / 4
    addendum := 0.3
    wholeDepth := 0.675
    tipDiameter := 5.4
    outsideDiameter := 5.4
    rootDiameter := 4.05
    circularPitch := 0.3 * Real.pi }

/-- A concrete `HG.Gear` state with easy-to-check field values. -/
noncomputable def HG.gearB : HG.Gear :=
  { backlash := 3
    helix_angle := 0
    handedness := HG.Handedness.right
    tooth_count := 16
    normal_module := 0.3
    normal_pressure_angle := Real.pi / 2
    normal_circular_pitch := 0.3 * Real.pi
    virtual_teeth := 16
    module := 0.3
    pressure_angle := Real.pi / 4
    pitch_diameter := 2
    base_diameter := 1.5
    addendum := 0.3
    whole_depth := 0.675
    outside_diameter := 5.4
    root_diameter := 4.05
    circular_pitch := 0.3 * Real.pi }

/-! Claim C2. -/

/-- C2: for every gear state with `sin²(normalPressureAngle) ≠ 0` (the case
in which the code computes a finite critical count rather than
`float('inf')`), `isUndercutRequried` holds exactly when `virtualTeeth <
critcalVirtualToothCount`, where `critcalVirtualToothCount =
2·(1 − profileShift)/sin²(normalPressureAngle)`; in the boundary case
`virtualTeeth = critcalVirtualToothCount` it is false. -/
theorem c2_undercut_iff (g : HGP.Gear)
    (h : Real.sin g.normalPressureAngle ^ 2 ≠ 0) :
    HGP.critcalVirtualToothCount g =
      2 * (1 - g.modifier.profileShift) / Real.sin g.normalPressureAngle ^ 2 ∧
    (HGP.isUndercutRequried g ↔
      g.virtualTeeth < HGP.critcalVirtualToothCount g) ∧
    (g.virtualTeeth = HGP.critcalVirtualToothCount g →
      ¬ HGP.isUndercutRequried g) := by
  unfold HGP.isUndercutRequried
  rw [if_neg h]
  refine ⟨rfl, Iff.rfl, fun he hlt => ?_⟩
  rw [he] at hlt
  exact lt_irrefl _ hlt

/-- Witness for C2 at the concrete gear `HGP.gearA` (whose normal pressure
angle is `π/2`, so `sin² = 1 ≠ 0`): its critical count evaluates to `2`, and
with 16 virtual teeth no undercut is flagged. -/
theorem c2_undercut_iff_witness :
    Real.sin HGP.gearA.normalPressureAngle ^ 2 ≠ 0 ∧
    ¬ HGP.isUndercutRequried HGP.gearA := by
  have h : Real.sin HGP.gearA.normalPressureAngle ^ 2 ≠ 0 := by
    simp [HGP.gearA, Real.sin_pi_div_two]
  refine ⟨h, fun hu => ?_⟩
  have h16 := ((c2_undercut_iff HGP.gearA h).2.1).mp hu
  rw [(c2_undercut_iff HGP.gearA h).1] at h16
  simp [HGP.gearA, Real.sin_pi_div_two] at h16
  norm_num at h16

/-! Claim C9. -/

/-- C9: the flank-crossing check of `Involute.draw` accepts at most one
crossing point of the two mirrored flank splines; with more than one
crossing point it fails hard with the assertion message
`'Failed to compute a valid involute profile!'` instead of proceeding. -/
theorem c9_crossing_assert (cross_points : List Point3D) :
    (cross_points.length ≤ 1 →
      Involute.drawCrossingAssert cross_points = Except.ok cross_points) ∧
    (1 < cross_points.length →
      Involute.drawCrossingAssert cross_points =
        Except.error "Failed to compute a valid involute profile!") := by
  unfold Involute.drawCrossingAssert
  constructor
  · intro h
    rcases Nat.le_one_iff_eq_zero_or_eq_one.mp h with h0 | h1
    · rw [if_pos (Or.inl h0)]
    · rw [if_pos (Or.inr h1)]
  · intro h
    rw [if_neg (by omega)]

/-- Witness for C9: a two-element crossing list triggers the assertion
failure with the exact source message. -/
theorem c9_crossing_assert_witness :
    1 < ([⟨0, 0, 0⟩, ⟨1, 0, 0⟩] : List Point3D).length ∧
    Involute.drawCrossingAssert [⟨0, 0, 0⟩, ⟨1, 0, 0⟩] =
      Except.error "Failed to compute a valid involute profile!" :=
  ⟨by norm_num, (c9_crossing_assert [⟨0, 0, 0⟩, ⟨1, 0, 0⟩]).2 (by norm_num)⟩

/-! Claim C10. -/

/-- C10: in both variants, the derived accessors guard their divisions:
`backlash_angle`/`backlashAngle` returns 0 whenever the pitch diameter is
not positive and `2·backlash/pitchDiameter` otherwise, and
`tooth_arc_angle`/`toothArcAngle` returns 0 whenever the tooth count is not
positive and `2π/toothCount` otherwise. -/
theorem c10_accessor_guards (g : HG.Gear) (g' : HGP.Gear) :
    (g.pitch_diameter ≤ 0 → HG.backlash_angle g = 0) ∧
    (0 < g.pitch_diameter →
      HG.backlash_angle g = 2 * g.backlash / g.pitch_diameter) ∧
    (g.tooth_count ≤ 0 → HG.tooth_arc_angle g = 0) ∧
    (0 < g.tooth_count →
      HG.tooth_arc_angle g = 2 * Real.pi / g.tooth_count) ∧
    (HGP.pitchDiameter g' ≤ 0 → HGP.backlashAngle g' = 0) ∧
    (0 < HGP.pitchDiameter g' →
      HGP.backlashAngle g' = 2 * g'.backlash / HGP.pitchDiameter g') ∧
    (g'.toothCount ≤ 0 → HGP.toothArcAngle g' = 0) ∧
    (0 < g'.toothCount →
      HGP.toothArcAngle g' = 2 * Real.pi / g'.toothCount) := by
  unfold HG.backlash_angle HG.tooth_arc_angle HGP.backlashAngle HGP.toothArcAngle
  exact ⟨fun h => if_neg (not_lt.mpr h), fun h => if_pos h,
    fun h => if_neg (not_lt.mpr h), fun h => if_pos h,
    fun h => if_neg (not_lt.mpr h), fun h => if_pos h,
    fun h => if_neg (not_lt.mpr h), fun h => if_pos h⟩

/-- Witness for C10 at the concrete gear states `HG.gearB` (positive pitch
diameter 2, backlash 3) and `HGP.gearA` (16 teeth). -/
theorem c10_accessor_guards_witness :
    0 < HG.gearB.pitch_diameter ∧
    HG.backlash_angle HG.gearB = 2 * HG.gearB.backlash / HG.gearB.pitch_diameter ∧
    0 < HGP.gearA.toothCount ∧
    HGP.toothArcAngle HGP.gearA = 2 * Real.pi / HGP.gearA.toothCount := by
  have h1 : (0:ℝ) < HG.gearB.pitch_diameter := by norm_num [HG.gearB]
  have h2 : (0:ℝ) < HGP.gearA.toothCount := by norm_num [HGP.gearA]
  exact ⟨h1, (c10_accessor_guards HG.gearB HGP.gearA).2.1 h1, h2,
    (c10_accessor_guards HG.gearB HGP.gearA).2.2.2.2.2.2.2 h2⟩

/-! Claim C6. -/

/-- C6 counterexample: for the Sunderland scenario `toothCount = 20`,
`radialModule = 2`, the addendum produced by `create_sunderland` is
`0.8796 · module = 0.8796 · 2` (the radial module), which differs from the
claimed `0.8796 · normal_module = 0.8796 · 2 · cos(22.5°)` because
`cos(22.5°) < 1`. -/
theorem c6_sunderland_counterexample :
    (HG.create_sunderland 20 2 HG.Handedness.right 0).addendum ≠
      0.8796 * (HG.create_sunderland 20 2 HG.Handedness.right 0).normal_module := by
  have h1 : (HG.create_sunderland 20 2 HG.Handedness.right 0).addendum
      = 0.8796 * 2 := by
    norm_num [HG.create_sunderland]
  have h2 : (HG.create_sunderland 20 2 HG.Handedness.right 0).normal_module
      = 2 * Real.cos (radians 22.5) := by
    norm_num [HG.create_sunderland]
  have h225 : radians 22.5 = Real.pi / 8 := by
    unfold radians; ring
  have hc : Real.cos (radians 22.5) < 1 := by
    rw [h225]
    have h0 : (0:ℝ) ∈ Set.Icc 0 Real.pi := ⟨le_refl 0, Real.pi_pos.le⟩
    have h8 : Real.pi / 8 ∈ Set.Icc 0 Real.pi :=
      ⟨by positivity, by linarith [Real.pi_pos]⟩
    have := Real.strictAntiOn_cos h0 h8 (by positivity)
    simpa using this
  rw [h1, h2]
  intro he
  nlinarith [hc]

/-- C6 (amended): for every `toothCount > 0` and `radialModule > 0`,
`create_sunderland` fixes the helix angle at 22.5° and the radial pressure
angle at 20°, and sets `addendum = 0.8796 · module` and
`wholeDepth = 1.8849 · module`, where `module` is the *radial* module (not
the normal module as the claim stated). -/
theorem c6_sunderland_amended (tooth_count radial_module : ℝ)
    (hd : HG.Handedness) (backlash : ℝ)
    (htc : 0 < tooth_count) (hrm : 0 < radial_module) :
    (HG.create_sunderland tooth_count radial_module hd backlash).helix_angle
      = radians 22.5 ∧
    (HG.create_sunderland tooth_count radial_module hd backlash).pressure_angle
      = radians 20 ∧
    (HG.create_sunderland tooth_count radial_module hd backlash).module
      = radial_module ∧
    (HG.create_sunderland tooth_count radial_module hd backlash).addendum
      = 0.8796 * (HG.create_sunderland tooth_count radial_module hd backlash).module ∧
    (HG.create_sunderland tooth_count radial_module hd backlash).whole_depth
      = 1.8849 * (HG.create_sunderland tooth_count radial_module hd backlash).module := by
  simp [HG.create_sunderland, htc, hrm]

/-- Witness for the amended C6 at the claim's concrete scenario
`toothCount = 20`, `radialModule = 2`. -/
theorem c6_sunderland_amended_witness :
    (0:ℝ) < 20 ∧ (0:ℝ) < 2 ∧
    (HG.create_sunderland 20 2 HG.Handedness.right 0).helix_angle = radians 22.5 ∧
    (HG.create_sunderland 20 2 HG.Handedness.right 0).pressure_angle = radians 20 ∧
    (HG.create_sunderland 20 2 HG.Handedness.right 0).addendum
      = 0.8796 * (HG.create_sunderland 20 2 HG.Handedness.right 0).module :=
  ⟨by norm_num, by norm_num,
    (c6_sunderland_amended 20 2 HG.Handedness.right 0 (by norm_num) (by norm_num)).1,
    (c6_sunderland_amended 20 2 HG.Handedness.right 0 (by norm_num) (by norm_num)).2.1,
    (c6_sunderland_amended 20 2 HG.Handedness.right 0 (by norm_num) (by norm_num)).2.2.2.1⟩

/-! Claim C1. -/

/-- C1: for inputs in the documented domain (`toothCount > 0`,
`normalModule > 0`, `0 ≤ normalPressureAngle < 90°`, `0 ≤ helixAngle < 90°`),
the working normal-system factory `create_in_normal_system` returns a gear
whose transverse quantities satisfy `module = normalModule/cos(helixAngle)`,
`pressureAngle = atan2(tan(normalPressureAngle), cos(helixAngle))`,
`pitchDiameter = module·toothCount` and
`baseDiameter = pitchDiameter·cos(pressureAngle)`.  (The corresponding
factory of HelicalGearPlus.py cannot return at all; see the results entry.) -/
theorem c1_normal_system_transverse (tooth_count normal_module
    normal_pressure_angle helix_angle : ℝ) (hd : HG.Handedness) (backlash : ℝ)
    (htc : 0 < tooth_count) (hnm : 0 < normal_module)
    (hnpa : 0 ≤ normal_pressure_angle ∧ normal_pressure_angle < radians 90)
    (hha : 0 ≤ helix_angle ∧ helix_angle < radians 90) :
    (HG.create_in_normal_system tooth_count normal_module normal_pressure_angle
        helix_angle hd backlash).module
      = normal_module / Real.cos helix_angle ∧
    (HG.create_in_normal_system tooth_count normal_module normal_pressure_angle
        helix_angle hd backlash).pressure_angle
      = atan2 (Real.tan normal_pressure_angle) (Real.cos helix_angle) ∧
    (HG.create_in_normal_system tooth_count normal_module normal_pressure_angle
        helix_angle hd backlash).pitch_diameter
      = (HG.create_in_normal_system tooth_count normal_module normal_pressure_angle
          helix_angle hd backlash).module * tooth_count ∧
    (HG.create_in_normal_system tooth_count normal_module normal_pressure_angle
        helix_angle hd backlash).base_diameter
      = (HG.create_in_normal_system tooth_count normal_module normal_pressure_angle
          helix_angle hd backlash).pitch_diameter *
        Real.cos (HG.create_in_normal_system tooth_count normal_module
          normal_pressure_angle helix_angle hd backlash).pressure_angle := by
  simp [HG.create_in_normal_system, htc, hnm, hnpa.1, hnpa.2, hha.1, hha.2]

/-- Witness for C1 at the concrete scenario `toothCount = 16`,
`normalModule = 0.3`, `normalPressureAngle = 20°`, `helixAngle = 30°`. -/
theorem c1_normal_system_transverse_witness :
    ((0:ℝ) < 16 ∧ (0:ℝ) < 0.3 ∧ (0 ≤ radians 20 ∧ radians 20 < radians 90) ∧
      (0 ≤ radians 30 ∧ radians 30 < radians 90)) ∧
    (HG.create_in_normal_system 16 0.3 (radians 20) (radians 30)
        HG.Handedness.right 0).module = 0.3 / Real.cos (radians 30) ∧
    (HG.create_in_normal_system 16 0.3 (radians 20) (radians 30)
        HG.Handedness.right 0).pressure_angle
      = atan2 (Real.tan (radians 20)) (Real.cos (radians 30)) ∧
    (HG.create_in_normal_system 16 0.3 (radians 20) (radians 30)
        HG.Handedness.right 0).pitch_diameter
      = (HG.create_in_normal_system 16 0.3 (radians 20) (radians 30)
          HG.Handedness.right 0).module * 16 := by
  have hnpa : 0 ≤ radians 20 ∧ radians 20 < radians 90 :=
    ⟨radians_nonneg (by norm_num), radians_lt_radians (by norm_num)⟩
  have hha : 0 ≤ radians 30 ∧ radians 30 < radians 90 :=
    ⟨radians_nonneg (by norm_num), radians_lt_radians (by norm_num)⟩
  have h := c1_normal_system_transverse 16 0.3 (radians 20) (radians 30)
    HG.Handedness.right 0 (by norm_num) (by norm_num) hnpa hha
  exact ⟨⟨by norm_num, by norm_num, hnpa, hha⟩, h.1, h.2.1, h.2.2.1⟩

/-! Claim C7. -/

/-- C7: for every base radius `rb > 0` and sample radius `r ≥ rb`, the raw
involute sample point equals `(r·cos θ, r·sin θ, z)` with
`l = sqrt(r² − rb²)`, `α = l/rb`, `θ = α − acos(rb/r)`; the sampling start
radius is `max(rb, rootRadius)`; and for `n ≥ 2` the sample radii step
linearly (constant step) from the start radius to the outside radius, with
`n` defaulting to 10. -/
theorem c7_involute_sampler (rb r z : ℝ) (hrb : 0 < rb) (hr : rb ≤ r)
    (g : HG.Gear) (n : ℕ) (hn : 2 ≤ n) :
    HG.involute_point rb r z =
      ⟨r * Real.cos (Real.sqrt (r ^ 2 - rb ^ 2) / rb - Real.arccos (rb / r)),
       r * Real.sin (Real.sqrt (r ^ 2 - rb ^ 2) / rb - Real.arccos (rb / r)),
       z⟩ ∧
    HG.involute_from_rad g = max (g.base_diameter / 2) (g.root_diameter / 2) ∧
    (HG.involuteRadii g n).length = n ∧
    (∀ i (h : i < n), (HG.involuteRadii g n).get ⟨i, by
        rwa [HG.involuteRadii, List.length_map, List.length_range]⟩
      = HG.involuteIntersectionRadius g n i) ∧
    HG.involuteIntersectionRadius g n 0 = HG.involute_from_rad g ∧
    HG.involuteIntersectionRadius g n (n - 1) = g.outside_diameter / 2 ∧
    (∀ i : ℕ, HG.involuteIntersectionRadius g n (i + 1)
        - HG.involuteIntersectionRadius g n i = HG.radiusStep g n) ∧
    HG.involutePointCountDefault = 10 := by
  refine ⟨?_, ?_, ?_, ?_, ?_, ?_, ?_, rfl⟩
  · unfold HG.involute_point
    have : r * r - rb * rb = r ^ 2 - rb ^ 2 := by ring
    rw [this]
  · unfold HG.involute_from_rad
    rcases le_or_lt (g.root_diameter) (g.base_diameter) with h | h
    · rw [if_pos h, max_eq_left (by linarith)]
    · rw [if_neg (not_le.mpr h), max_eq_right (by linarith)]
  · simp [HG.involuteRadii]
  · intro i h
    simp [HG.involuteRadii]
  · simp [HG.involuteIntersectionRadius]
  · unfold HG.involuteIntersectionRadius HG.radiusStep
    have hn1 : ((n : ℝ) - 1) ≠ 0 := by
      have : (2 : ℝ) ≤ (n : ℝ) := by exact_mod_cast hn
      linarith
    have hcast : ((n - 1 : ℕ) : ℝ) = (n : ℝ) - 1 := by
      have : 1 ≤ n := by omega
      push_cast [this]
      ring
    rw [hcast]
    field_simp
    ring
  · intro i
    unfold HG.involuteIntersectionRadius
    push_cast
    ring

/-- Witness for C7 at base radius 1, sample radius 2, the gear `HG.gearB`
and the default sample count 10. -/
theorem c7_involute_sampler_witness :
    ((0:ℝ) < 1 ∧ (1:ℝ) ≤ 2 ∧ 2 ≤ 10) ∧
    HG.involute_point 1 2 0 =
      ⟨2 * Real.cos (Real.sqrt ((2:ℝ) ^ 2 - 1 ^ 2) / 1 - Real.arccos (1 / 2)),
       2 * Real.sin (Real.sqrt ((2:ℝ) ^ 2 - 1 ^ 2) / 1 - Real.arccos (1 / 2)),
       0⟩ ∧
    HG.involuteIntersectionRadius HG.gearB 10 9 = HG.gearB.outside_diameter / 2 := by
  have h := c7_involute_sampler 1 2 0 (by norm_num) (by norm_num) HG.gearB 10
    (by norm_num)
  exact ⟨⟨by norm_num, by norm_num, by norm_num⟩, h.1, h.2.2.2.2.2.1⟩

/-! Claim C8. -/

/-- C8 counterexample: `createInNormalSystem` of HelicalGearPlus.py does
*not* replace a non-positive module by the epsilon `1e-10` — the clamp is
commented out in the source (line 484) — so a module of `-1` passes through
unchanged. -/
theorem c8_clamp_counterexample :
    (HGP.createInNormalSystem 16 (-1) (radians 20) 0 0 1 1.25 1 false
        none none none).normalModule = -1 ∧ ((-1 : ℝ) ≠ 1e-10) := by
  constructor
  · norm_num [HGP.createInNormalSystem]
  · norm_num

/-- C8 (amended): every factory clamps a non-positive tooth count to 1, and
the `1e-10` module replacement is applied by the three factories of
HelicalGear.py and by `createInRadialSystem` of HelicalGearPlus.py — but
`createInNormalSystem` of HelicalGearPlus.py passes the module through
unchanged (its clamp is commented out).  The embedded factories are total
functions; invalidity is reported only through the validity predicates. -/
theorem c8_clamping_amended (tc nm npa ha b ad de w : ℝ) (hb : Bool)
    (iod : Option ℝ) (gm : Option HGP.GearModifier) (gmt : Option HGP.GearMount)
    (tc2 rm2 rpa2 ha2 b2 : ℝ) (hd2 : HG.Handedness) (tc3 rm3 : ℝ) :
    (HG.create_in_normal_system tc2 rm2 rpa2 ha2 hd2 b2).tooth_count
      = (if 0 < tc2 then tc2 else 1) ∧
    (HG.create_in_normal_system tc2 rm2 rpa2 ha2 hd2 b2).normal_module
      = (if 0 < rm2 then rm2 else 1e-10) ∧
    (HG.create_in_radial_system tc2 rm2 rpa2 ha2 hd2 b2).tooth_count
      = (if 0 < tc2 then tc2 else 1) ∧
    (HG.create_in_radial_system tc2 rm2 rpa2 ha2 hd2 b2).module
      = (if 0 < rm2 then rm2 else 1e-10) ∧
    (HG.create_sunderland tc3 rm3 hd2 b2).tooth_count
      = (if 0 < tc3 then tc3 else 1) ∧
    (HG.create_sunderland tc3 rm3 hd2 b2).module
      = (if 0 < rm3 then rm3 else 1e-10) ∧
    (HGP.createInNormalSystem tc nm npa ha b ad de w hb iod gm gmt).toothCount
      = (if 0 < tc then tc else 1) ∧
    (HGP.createInNormalSystem tc nm npa ha b ad de w hb iod gm gmt).normalModule
      = nm ∧
    (HGP.createInRadialSystem tc nm npa ha b ad de w hb iod gm gmt).toothCount
      = (if 0 < tc then tc else 1) ∧
    (HGP.createInRadialSystem tc nm npa ha b ad de w hb iod gm gmt).module
      = (if 0 < nm then nm else 1e-10) :=
  ⟨rfl, rfl, rfl, rfl, rfl, rfl, rfl, rfl, rfl, rfl⟩

/-! Helper lemmas for claim C4: the involute function `tan t − t` is
strictly convex on `(0, π/2)`, so each Newton step of
`Involute.InverseInvolute` lands strictly above the exact root and the
iteration descends towards it from above. -/

lemma cos_ne_zero_of_pos_of_lt {c : ℝ} (h1 : 0 < c) (h2 : c < Real.pi/2) :
    Real.cos c ≠ 0 :=
  (Real.cos_pos_of_mem_Ioo ⟨by linarith [Real.pi_pos], h2⟩).ne'

lemma invol_hasDerivAt {c : ℝ} (h1 : 0 < c) (h2 : c < Real.pi/2) :
    HasDerivAt (fun t => Real.tan t - t) (Real.tan c ^ 2) c := by
  have hcos : Real.cos c ≠ 0 := cos_ne_zero_of_pos_of_lt h1 h2
  have h := (Real.hasDerivAt_tan hcos).sub (hasDerivAt_id c)
  have ht := Real.inv_one_add_tan_sq hcos
  have h1' := congrArg Inv.inv ht
  rw [inv_inv] at h1'
  have heq : 1 / Real.cos c ^ 2 - 1 = Real.tan c ^ 2 := by
    rw [one_div, ← h1']
    ring
  rwa [heq] at h

lemma invol_slope_eq {a b : ℝ} (ha : 0 < a) (hb : b < Real.pi/2) (hab : a < b) :
    ∃ c, a < c ∧ c < b ∧
      (Real.tan b - b) - (Real.tan a - a) = Real.tan c ^ 2 * (b - a) := by
  have hcont : ContinuousOn (fun t => Real.tan t - t) (Set.Icc a b) := by
    intro t ht
    have h1 : 0 < t := lt_of_lt_of_le ha ht.1
    have h2 : t < Real.pi/2 := lt_of_le_of_lt ht.2 hb
    have hcos : Real.cos t ≠ 0 := cos_ne_zero_of_pos_of_lt h1 h2
    exact ((Real.continuousAt_tan.mpr hcos).sub continuousAt_id).continuousWithinAt
  have hderiv : ∀ t ∈ Set.Ioo a b,
      HasDerivAt (fun t => Real.tan t - t) (Real.tan t ^ 2) t :=
    fun t ht => invol_hasDerivAt (lt_trans ha ht.1) (lt_trans ht.2 hb)
  obtain ⟨c, hc, heq⟩ := exists_hasDerivAt_eq_slope (fun t => Real.tan t - t)
    (fun t => Real.tan t ^ 2) hab hcont hderiv
  refine ⟨c, hc.1, hc.2, ?_⟩
  have hba : b - a ≠ 0 := by linarith
  field_simp at heq
  linarith [heq]

lemma tan_lt_tan_pos {a b : ℝ} (ha : 0 < a) (hb : b < Real.pi/2) (hab : a < b) :
    Real.tan a < Real.tan b :=
  Real.strictMonoOn_tan ⟨by linarith [Real.pi_pos], by linarith⟩
    ⟨by linarith [Real.pi_pos], hb⟩ hab

lemma invol_tangent_lt {θ x : ℝ} (hθ1 : 0 < θ) (hθ2 : θ < Real.pi/2)
    (hx1 : 0 < x) (hx2 : x < Real.pi/2) (hne : θ ≠ x) :
    (Real.tan θ - θ) + Real.tan θ ^ 2 * (x - θ) < Real.tan x - x := by
  rcases hne.lt_or_lt with h | h
  · obtain ⟨c, hc1, hc2, heq⟩ := invol_slope_eq hθ1 hx2 h
    have htθ : 0 < Real.tan θ := Real.tan_pos_of_pos_of_lt_pi_div_two hθ1 hθ2
    have htc : Real.tan θ < Real.tan c := tan_lt_tan_pos hθ1 (by linarith) hc1
    have hsq : Real.tan θ ^ 2 < Real.tan c ^ 2 := by nlinarith
    nlinarith [hsq, heq]
  · obtain ⟨c, hc1, hc2, heq⟩ := invol_slope_eq hx1 hθ2 h
    have htcpos : 0 < Real.tan c :=
      Real.tan_pos_of_pos_of_lt_pi_div_two (by linarith) (by linarith)
    have htc : Real.tan c < Real.tan θ := tan_lt_tan_pos (by linarith) hθ2 hc2
    have hsq : Real.tan c ^ 2 < Real.tan θ ^ 2 := by nlinarith
    nlinarith [hsq, heq]

lemma inverseInvoluteStep_gt {x θ : ℝ} (hx1 : 0 < x) (hx2 : x < Real.pi/2)
    (hθ1 : 0 < θ) (hθ2 : θ < Real.pi/2) (hne : θ ≠ x) :
    x < Involute.inverseInvoluteStep (Real.tan x - x) θ := by
  have hT : 0 < Real.tan θ ^ 2 :=
    pow_pos (Real.tan_pos_of_pos_of_lt_pi_div_two hθ1 hθ2) 2
  have key := invol_tangent_lt hθ1 hθ2 hx1 hx2 hne
  have h2 : (x - θ) * Real.tan θ ^ 2 <
      (Real.tan x - x) - (Real.tan θ - θ) := by nlinarith [key]
  have h3 : (x - θ) < ((Real.tan x - x) - (Real.tan θ - θ)) / Real.tan θ ^ 2 :=
    (lt_div_iff₀ hT).mpr h2
  unfold Involute.inverseInvoluteStep
  linarith [h3]

lemma inverseInvoluteStep_lt {x θ : ℝ} (hx1 : 0 < x) (hθ2 : θ < Real.pi/2)
    (hlt : x < θ) :
    Involute.inverseInvoluteStep (Real.tan x - x) θ < θ := by
  have hθ1 : 0 < θ := lt_trans hx1 hlt
  have hT : 0 < Real.tan θ ^ 2 :=
    pow_pos (Real.tan_pos_of_pos_of_lt_pi_div_two hθ1 hθ2) 2
  obtain ⟨c, hc1, hc2, heq⟩ := invol_slope_eq hx1 hθ2 hlt
  have htcpos : 0 < Real.tan c :=
    Real.tan_pos_of_pos_of_lt_pi_div_two (by linarith) (by linarith)
  have hgt : (Real.tan x - x) - (Real.tan θ - θ) < 0 := by
    nlinarith [heq, mul_pos (pow_pos htcpos 2) (sub_pos.mpr hlt)]
  have := div_neg_of_neg_of_pos hgt hT
  unfold Involute.inverseInvoluteStep
  linarith

lemma newton3_between {x θ0 : ℝ} (hx1 : 0 < x) (hx2 : x < Real.pi/2)
    (h1 : x < θ0) (h2 : θ0 < Real.pi/2) :
    x < Involute.inverseInvoluteStep (Real.tan x - x)
        (Involute.inverseInvoluteStep (Real.tan x - x)
          (Involute.inverseInvoluteStep (Real.tan x - x) θ0)) ∧
    Involute.inverseInvoluteStep (Real.tan x - x)
        (Involute.inverseInvoluteStep (Real.tan x - x)
          (Involute.inverseInvoluteStep (Real.tan x - x) θ0)) < Real.pi/2 := by
  have s1a : x < Involute.inverseInvoluteStep (Real.tan x - x) θ0 :=
    inverseInvoluteStep_gt hx1 hx2 (by linarith) h2 (ne_of_gt h1)
  have s1b : Involute.inverseInvoluteStep (Real.tan x - x) θ0 < θ0 :=
    inverseInvoluteStep_lt hx1 h2 h1
  have s2a : x < Involute.inverseInvoluteStep (Real.tan x - x)
      (Involute.inverseInvoluteStep (Real.tan x - x) θ0) :=
    inverseInvoluteStep_gt hx1 hx2 (by linarith) (by linarith) (ne_of_gt s1a)
  have s2b : Involute.inverseInvoluteStep (Real.tan x - x)
        (Involute.inverseInvoluteStep (Real.tan x - x) θ0) <
      Involute.inverseInvoluteStep (Real.tan x - x) θ0 :=
    inverseInvoluteStep_lt hx1 (by linarith) s1a
  have s3a : x < Involute.inverseInvoluteStep (Real.tan x - x)
      (Involute.inverseInvoluteStep (Real.tan x - x)
        (Involute.inverseInvoluteStep (Real.tan x - x) θ0)) :=
    inverseInvoluteStep_gt hx1 hx2 (by linarith) (by linarith) (ne_of_gt s2a)
  have s3b : Involute.inverseInvoluteStep (Real.tan x - x)
        (Involute.inverseInvoluteStep (Real.tan x - x)
          (Involute.inverseInvoluteStep (Real.tan x - x) θ0)) <
      Involute.inverseInvoluteStep (Real.tan x - x)
        (Involute.inverseInvoluteStep (Real.tan x - x) θ0) :=
    inverseInvoluteStep_lt hx1 (by linarith) s2a
  exact ⟨s3a, by linarith⟩

lemma le_rpow_third {t a : ℝ} (ha : 0 ≤ a) (h : a ^ 3 ≤ t) :
    a ≤ t ^ ((1:ℝ)/3) := by
  have h1 : (a ^ 3 : ℝ) ^ ((1:ℝ)/3) ≤ t ^ ((1:ℝ)/3) :=
    Real.rpow_le_rpow (by positivity) h (by norm_num)
  have h2 : (a ^ 3 : ℝ) ^ ((1:ℝ)/3) = a := by
    rw [← Real.rpow_natCast a 3, ← Real.rpow_mul ha]
    norm_num
  linarith [h1, h2.le]

lemma rpow_third_le {t c : ℝ} (ht : 0 ≤ t) (hc : 0 ≤ c) (h : t ≤ c ^ 3) :
    t ^ ((1:ℝ)/3) ≤ c := by
  have h1 : t ^ ((1:ℝ)/3) ≤ (c ^ 3 : ℝ) ^ ((1:ℝ)/3) :=
    Real.rpow_le_rpow ht h (by norm_num)
  have h2 : (c ^ 3 : ℝ) ^ ((1:ℝ)/3) = c := by
    rw [← Real.rpow_natCast c 3, ← Real.rpow_mul hc]
    norm_num
  linarith [h1, h2.le]

lemma rpow_two_thirds_le {t c : ℝ} (ht : 0 ≤ t) (hc : 0 ≤ c) (h : t ≤ c ^ 3) :
    t ^ ((2:ℝ)/3) ≤ c ^ 2 := by
  have h1 : t ^ ((2:ℝ)/3) = (t ^ ((1:ℝ)/3)) ^ 2 := by
    rw [← Real.rpow_natCast (t ^ ((1:ℝ)/3)) 2, ← Real.rpow_mul ht]
    norm_num
  have h13 := rpow_third_le ht hc h
  have hnn : 0 ≤ t ^ ((1:ℝ)/3) := Real.rpow_nonneg ht _
  rw [h1]
  nlinarith [h13, hnn]

/-- For the input `I = involute(π/4) = 1 − π/4`, the closed-form initial
estimate of `InverseInvolute` lies strictly between `π/4` and `π/2` (and in
particular is not exactly `π/4`). -/
lemma inverseInvoluteInit_bounds :
    Real.pi/4 < Involute.inverseInvoluteInit (1 - Real.pi/4) ∧
    Involute.inverseInvoluteInit (1 - Real.pi/4) < Real.pi/2 := by
  have hpl := Real.pi_lt_d6
  have hpg := Real.pi_gt_d6
  have hIlo : (0.2146017 : ℝ) ≤ 1 - Real.pi/4 := by nlinarith
  have hIhi : (1 - Real.pi/4) ≤ (0.214602 : ℝ) := by nlinarith
  have hInn : (0:ℝ) ≤ 1 - Real.pi/4 := by linarith
  have h3lo : (0.5987:ℝ) ≤ (1 - Real.pi/4) ^ ((1:ℝ)/3) := by
    apply le_rpow_third (by norm_num)
    have : (0.5987:ℝ) ^ 3 ≤ 0.2146017 := by norm_num
    linarith
  have h3hi : (1 - Real.pi/4) ^ ((1:ℝ)/3) ≤ 0.59873 := by
    apply rpow_third_le hInn (by norm_num)
    have : (0.214602:ℝ) ≤ (0.59873:ℝ) ^ 3 := by norm_num
    linarith
  have h23hi : (1 - Real.pi/4) ^ ((2:ℝ)/3) ≤ (0.59873:ℝ) ^ 2 := by
    apply rpow_two_thirds_le hInn (by norm_num)
    have : (0.214602:ℝ) ≤ (0.59873:ℝ) ^ 3 := by norm_num
    linarith
  have h23hi' : (1 - Real.pi/4) ^ ((2:ℝ)/3) ≤ 0.35848 := by nlinarith [h23hi]
  have h23nn : (0:ℝ) ≤ (1 - Real.pi/4) ^ ((2:ℝ)/3) := Real.rpow_nonneg hInn _
  constructor
  · unfold Involute.inverseInvoluteInit
    nlinarith [h3lo, h23hi', hIhi, hpl]
  · unfold Involute.inverseInvoluteInit
    nlinarith [h3hi, h23nn, hInn, hpg]

/-! Claim C4. -/

/-- C4 counterexample: at the concrete unshifted gear `HGP.gearA`
(`pressureAngle = π/4`, both profile shifts 0), the computed
`workingPressureAngle` is *not* equal to the pressure angle (it is strictly
greater: the three Newton steps of `InverseInvolute` stay strictly above the
exact root `π/4` by strict convexity of `tan t − t`), and consequently
`centerDistanceIncrementFactor` is strictly positive, not 0. -/
theorem c4_working_angle_counterexample :
    HGP.workingPressureAngle HGP.gearA ≠ HGP.gearA.pressureAngle ∧
    HGP.centerDistanceIncrementFactor HGP.gearA ≠ 0 := by
  have hpa : HGP.gearA.pressureAngle = Real.pi/4 := rfl
  have hps : HGP.gearA.modifier.profileShift = 0 := rfl
  have hops : HGP.gearA.modifier.otherProfileShift = 0 := rfl
  have hx1 : (0:ℝ) < Real.pi/4 := by linarith [Real.pi_pos]
  have hx2 : Real.pi/4 < Real.pi/2 := by linarith [Real.pi_pos]
  have hIW : HGP.involuteW HGP.gearA = Real.tan (Real.pi/4) - Real.pi/4 := by
    unfold HGP.involuteW HGP.involuteA
    rw [hps, hops, hpa]
    ring
  have hwpa : HGP.workingPressureAngle HGP.gearA =
      Involute.inverseInvoluteStep (Real.tan (Real.pi/4) - Real.pi/4)
        (Involute.inverseInvoluteStep (Real.tan (Real.pi/4) - Real.pi/4)
          (Involute.inverseInvoluteStep (Real.tan (Real.pi/4) - Real.pi/4)
            (Involute.inverseInvoluteInit (Real.tan (Real.pi/4) - Real.pi/4)))) := by
    unfold HGP.workingPressureAngle Involute.InverseInvolute
    rw [hIW]
  have hinit1 : Real.pi/4 <
      Involute.inverseInvoluteInit (Real.tan (Real.pi/4) - Real.pi/4) := by
    rw [Real.tan_pi_div_four]
    exact inverseInvoluteInit_bounds.1
  have hinit2 : Involute.inverseInvoluteInit (Real.tan (Real.pi/4) - Real.pi/4)
      < Real.pi/2 := by
    rw [Real.tan_pi_div_four]
    exact inverseInvoluteInit_bounds.2
  have hmain := newton3_between hx1 hx2 hinit1 hinit2
  have hWlo : Real.pi/4 < HGP.workingPressureAngle HGP.gearA := by
    rw [hwpa]; exact hmain.1
  have hWhi : HGP.workingPressureAngle HGP.gearA < Real.pi/2 := by
    rw [hwpa]; exact hmain.2
  constructor
  · rw [hpa]
    exact ne_of_gt hWlo
  · have hcosW_pos : 0 < Real.cos (HGP.workingPressureAngle HGP.gearA) :=
      Real.cos_pos_of_mem_Ioo ⟨by linarith [Real.pi_pos], hWhi⟩
    have hmemx : Real.pi/4 ∈ Set.Icc 0 Real.pi :=
      ⟨by linarith [Real.pi_pos], by linarith [Real.pi_pos]⟩
    have hmemW : HGP.workingPressureAngle HGP.gearA ∈ Set.Icc 0 Real.pi :=
      ⟨by linarith [Real.pi_pos], by linarith [Real.pi_pos]⟩
    have hcos_lt : Real.cos (HGP.workingPressureAngle HGP.gearA) <
        Real.cos (Real.pi/4) :=
      Real.strictAntiOn_cos hmemx hmemW hWlo
    have hratio : 1 < Real.cos (Real.pi/4) /
        Real.cos (HGP.workingPressureAngle HGP.gearA) :=
      (one_lt_div hcosW_pos).mpr hcos_lt
    have htc : HGP.gearA.toothCount = 16 := rfl
    have hotc : HGP.gearA.modifier.otherToothCount = 0 := rfl
    have hcd : HGP.centerDistanceIncrementFactor HGP.gearA =
        8 * (Real.cos (Real.pi/4) /
          Real.cos (HGP.workingPressureAngle HGP.gearA) - 1) := by
      unfold HGP.centerDistanceIncrementFactor
      rw [htc, hotc, hpa]
      ring
    rw [hcd]
    intro h0
    nlinarith [hratio]

/-- C4 (amended): for every gear state whose two profile-shift coefficients
are both 0, `involuteW` equals `involute(pressureAngle)` exactly, and
therefore `workingPressureAngle` equals
`inverseInvolute(involute(pressureAngle))` — the Newton approximation of the
pressure angle, which is not the pressure angle itself (see the
counterexample). -/
theorem c4_working_angle_amended (g : HGP.Gear)
    (h1 : g.modifier.profileShift = 0)
    (h2 : g.modifier.otherProfileShift = 0) :
    HGP.involuteW g = Involute.Involute g.pressureAngle ∧
    HGP.workingPressureAngle g =
      Involute.InverseInvolute (Involute.Involute g.pressureAngle) := by
  have hW : HGP.involuteW g = Involute.Involute g.pressureAngle := by
    unfold HGP.involuteW HGP.involuteA Involute.Involute
    rw [h1, h2]
    ring
  exact ⟨hW, by unfold HGP.workingPressureAngle; rw [hW]⟩

/-- Witness for the amended C4 at the concrete unshifted gear `HGP.gearA`. -/
theorem c4_working_angle_amended_witness :
    HGP.gearA.modifier.profileShift = 0 ∧
    HGP.gearA.modifier.otherProfileShift = 0 ∧
    HGP.involuteW HGP.gearA = Involute.Involute HGP.gearA.pressureAngle :=
  ⟨rfl, rfl, (c4_working_angle_amended HGP.gearA rfl rfl).1⟩

/-! Claim C5. -/

/-- Helper: `firstFailingLabel` returns `none` exactly when no condition in
the list holds. -/
lemma firstFailingLabel_eq_none_iff (l : List (Prop × String)) :
    HGP.firstFailingLabel l = none ↔ ∀ pc ∈ l, ¬ pc.1 := by
  induction l with
  | nil => simp [HGP.firstFailingLabel]
  | cons pc rest ih =>
    by_cases h : pc.1
    · simp [HGP.firstFailingLabel, if_pos h, h]
    · simp [HGP.firstFailingLabel, if_neg h, h, ih]

/-- Helper: `isInvalid` is the first failing label of the ordered check
list. -/
lemma isInvalid_eq_firstFailingLabel (g : HGP.Gear) :
    HGP.isInvalid g = HGP.firstFailingLabel (HGP.failList g) := by
  simp only [HGP.isInvalid, HGP.failList, HGP.firstFailingLabel]

/-- C5: the validity predicate `isInvalid` (with its broken
`pitchDiameter`/`baseDiameter` properties replaced by their intended
formulas) reports valid (`none`, Python `False`) exactly when all its checks
hold — width > 0, helix angle within ±90°, module > 0, addendum > 0,
wholeDepth > 0, both pressure angles in [0°, 80°], toothCount > 0,
`|backlashAngle|/4 < toothArcAngle/8`, `internalOutsideDiameter >
outsideDiameter` when an internal diameter is set, circularPitch > 0,
baseDiameter > 0, pitchDiameter > 0, rootDiameter > 0.03,
outsideDiameter > 0 — and otherwise returns the label of the first failing
check in source priority order. -/
theorem c5_isInvalid_first_failing (g : HGP.Gear) :
    (HGP.isInvalid g = none ↔
      (0 < g.width ∧
       radians (-90) ≤ g.helixAngle ∧
       g.helixAngle ≤ radians 90 ∧
       0 < g.module ∧
       0 < g.addendum ∧
       0 < g.wholeDepth ∧
       0 ≤ g.pressureAngle ∧
       g.pressureAngle ≤ radians 80 ∧
       0 ≤ g.normalPressureAngle ∧
       g.normalPressureAngle ≤ radians 80 ∧
       0 < g.toothCount ∧
       |HGP.backlashAngle g| / 4 < HGP.toothArcAngle g / 8 ∧
       (g.internalOutsideDiameter.getD 0 ≠ 0 →
         g.outsideDiameter < g.internalOutsideDiameter.getD 0) ∧
       0 < g.circularPitch ∧
       0 < HGP.baseDiameter g ∧
       0 < HGP.pitchDiameter g ∧
       0.03 < g.rootDiameter ∧
       0 < g.outsideDiameter)) ∧
    HGP.isInvalid g = HGP.firstFailingLabel (HGP.failList g) := by
  refine ⟨?_, isInvalid_eq_firstFailingLabel g⟩
  rw [isInvalid_eq_firstFailingLabel g, firstFailingLabel_eq_none_iff]
  simp only [HGP.failList, List.mem_cons, List.not_mem_nil, forall_eq_or_imp,
    forall_eq, false_implies, and_true]
  push_neg
  tauto
